import Mathlib

/-!
Verification of the incremental catalog synchronization engine of the
ptcg-price-prediction repository, as a shallow embedding in Lean 4.

The embedding follows the Python source:
* `_parse_price`          — `SimpleFetcher._parse_price` / `CardrushFetcher._parse_price`
                            (the two implementations are textually different but
                            behaviourally identical; one model serves both)
* `SimpleFetcher.save_products_to_sqlite`    — fetcher.py
* `CardrushFetcher.save_products_to_sqlite`  — cardrushFetcher.py
* `extract_product_group` — the `/product-group/(\d+)` regex side effect of
                            `CardrushFetcher.fetch_html`
* `page_fingerprint`, `crawl_series`         — download_cardrush.py
* `LimitlessFetcher.save_card_index`         — limitlessFetcher.py
* the enumeration loop of full_process_limitless.py

SQLite tables are modelled as lists of rows; `INSERT ... ON CONFLICT ... DO
UPDATE` becomes a keyed upsert (the conflict target is a PRIMARY KEY / UNIQUE
constraint, so at most one row can conflict and replacing the first match is
exact).  A Python function that can raise returns `Except PyErr`; the
`with sqlite3.connect(...)` context manager rolls the transaction back when an
exception escapes, so a failing persistence call leaves the store unchanged —
the models return the original store paired with the error in that case.
-/

deriving instance DecidableEq for Except

namespace Ptcg

/-- Python exception kinds that the modelled code can raise. -/
inductive PyErr
  | valueError      -- float("") in _parse_price
  | integrityError  -- PRIMARY KEY violation on a plain INSERT
  | runtimeError    -- "product_group is not set on fetcher"
  | transportError  -- requests network failure / raise_for_status
deriving DecidableEq

/-- Python truthiness of an optional string: `None` and `""` are falsy,
as tested by `if not x:`. -/
def pyFalsy : Option String → Bool
  | none => true
  | some s => s.isEmpty

/-- Python `a or b` on optional strings: `b` when `a` is falsy, else `a`. -/
def pyOr (a b : Option String) : Option String :=
  if pyFalsy a then b else a

/-! ## Price parsing (`_parse_price`)

```python
if not price_str: return None
m = re.search(r"([\d,]+)", price_str)
return float(m.group(1).replace(",", "")) if m else None
```
-/

/-- Start code points of the runs of ten consecutive Unicode decimal digits
(category Nd, digit values 0..9 in code-point order) matched by Python's
`\d` in a str pattern.  Enumerated from CPython's `re` module and verified
against `unicodedata.decimal`: 660 code points in 66 uniform runs (the
mathematical alphanumeric block U+1D7CE–1D7FF is five consecutive runs). -/
def decimalDigitBases : List ℕ :=
  [0x30, 0x660, 0x6F0, 0x7C0, 0x966, 0x9E6, 0xA66, 0xAE6, 0xB66, 0xBE6,
   0xC66, 0xCE6, 0xD66, 0xDE6, 0xE50, 0xED0, 0xF20, 0x1040, 0x1090, 0x17E0,
   0x1810, 0x1946, 0x19D0, 0x1A80, 0x1A90, 0x1B50, 0x1BB0, 0x1C40, 0x1C50,
   0xA620, 0xA8D0, 0xA900, 0xA9D0, 0xA9F0, 0xAA50, 0xABF0, 0xFF10, 0x104A0,
   0x10D30, 0x11066, 0x110F0, 0x11136, 0x111D0, 0x112F0, 0x11450, 0x114D0,
   0x11650, 0x116C0, 0x11730, 0x118E0, 0x11950, 0x11C50, 0x11D50, 0x11DA0,
   0x16A60, 0x16AC0, 0x16B50, 0x1D7CE, 0x1D7D8, 0x1D7E2, 0x1D7EC, 0x1D7F6,
   0x1E140, 0x1E2F0, 0x1E950, 0x1FBF0]

/-- The base of the decimal-digit run containing code point `n`, if any. -/
def digitRunBase (n : ℕ) : Option ℕ :=
  decimalDigitBases.find? (fun b => b ≤ n && n < b + 10)

/-- Python `\d` on one character: any Unicode decimal digit (not just
ASCII — e.g. the fullwidth `１` matches). -/
def isPyDigit (c : Char) : Bool := (digitRunBase c.toNat).isSome

/-- The decimal value of a Unicode decimal digit (0 for non-digits).
`float()` maps every decimal digit to its ASCII counterpart before
converting, so this is the value the program computes. -/
def pyDigitVal (c : Char) : ℕ :=
  match digitRunBase c.toNat with
  | some b => c.toNat - b
  | none => 0

/-- A character matched by the regex class `[\d,]`. -/
def isPriceChar (c : Char) : Bool := isPyDigit c || c == ','

/-- `re.search(r"([\d,]+)", s)`: the leftmost maximal run of digit-or-comma
characters, or `none` when no such character occurs. -/
def firstPriceRun : List Char → Option (List Char)
  | [] => none
  | c :: cs =>
    if isPriceChar c then some (c :: cs.takeWhile isPriceChar)
    else firstPriceRun cs

/-- Numeric value of a non-empty string of decimal digits, as read by
`float`, which maps every Unicode decimal digit to ASCII before parsing.
All prices are integral and far below 2^53, so `float` is exact and the
value is modelled as a natural number. -/
def digitsToNat (ds : List Char) : ℕ :=
  ds.foldl (fun n c => 10 * n + pyDigitVal c) 0

/-- `_parse_price` (identical logic in fetcher.py and cardrushFetcher.py).
`float("")` raises `ValueError`, which happens exactly when the matched run
consists of commas only. -/
def _parse_price : Option String → Except PyErr (Option ℕ)
  | none => .ok none
  | some s =>
    if s.isEmpty then .ok none
    else
      match firstPriceRun s.data with
      | none => .ok none
      | some run =>
        let ds := run.filter (fun c => !(c == ','))
        if ds.isEmpty then .error .valueError
        else .ok (some (digitsToNat ds))

/-! ## Keyed upsert

`INSERT ... ON CONFLICT(key) DO UPDATE` against a table whose conflict target
is a uniqueness constraint: if a row with the key exists it is updated in
place (`update old`), otherwise the fresh row `mk` is appended. -/

def upsertBy {α κ : Type} [DecidableEq κ] (key : α → κ) (update : α → α) (mk : α) :
    List α → List α
  | [] => [mk]
  | r :: rs =>
    if key r = key mk then update r :: rs
    else r :: upsertBy key update mk rs

/-! ## SimpleFetcher (fetcher.py) -/

/-- A record produced by `SimpleFetcher.parse_products`. -/
structure SimpleRecord where
  product_id : Option String
  name : Option String
  model_number : Option String
  price : Option String
  stock : Option String
  product_url : Option String
  image_url : Option String
  image_alt : Option String
deriving DecidableEq

/-- A row of the `products` table (init_db.py). -/
structure ProductRow where
  product_id : String
  url : String
  name : String
  created_at : String
  updated_at : String
deriving DecidableEq

/-- A row of the `price_history` table (init_db.py),
PRIMARY KEY (product_id, captured_date). -/
structure PriceHistoryRow where
  product_id : String
  captured_date : String
  captured_at : String
  price : Option ℕ
  currency : String
  stock_status : Option String
deriving DecidableEq

/-- The SQLite store touched by `SimpleFetcher.save_products_to_sqlite`. -/
structure SimpleStore where
  products : List ProductRow
  price_history : List PriceHistoryRow
deriving DecidableEq

/-- Upsert into `products` keyed by `product_id`: on conflict update
`url`, `name`, `updated_at` (keeping `created_at`). -/
def upsertProduct (ps : List ProductRow) (pid url name t : String) : List ProductRow :=
  upsertBy (fun r => r.product_id)
    (fun old => { old with url := url, name := name, updated_at := t })
    ⟨pid, url, name, t, t⟩ ps

/-- Upsert into `price_history` keyed by `(product_id, captured_date)`:
on conflict overwrite `captured_at`, `price`, `currency`, `stock_status`. -/
def upsertPriceHistory (hs : List PriceHistoryRow) (pid date at_ : String)
    (price : Option ℕ) (currency : String) (stock : Option String) :
    List PriceHistoryRow :=
  upsertBy (fun r => (r.product_id, r.captured_date))
    (fun _ => ⟨pid, date, at_, price, currency, stock⟩)
    ⟨pid, date, at_, price, currency, stock⟩ hs

namespace SimpleFetcher

/-- The per-item loop body of `SimpleFetcher.save_products_to_sqlite`.
A record with a falsy `product_id`, `name` or `product_url` is skipped;
otherwise both writes happen and the written count is incremented.
`_parse_price` may raise, aborting the batch. -/
def saveGo (capturedAt capturedDate currency : String) :
    SimpleStore → ℕ → List SimpleRecord → Except PyErr (SimpleStore × ℕ)
  | st, w, [] => .ok (st, w)
  | st, w, it :: rest =>
    if pyFalsy it.product_id || pyFalsy it.name || pyFalsy it.product_url then
      saveGo capturedAt capturedDate currency st w rest
    else
      let pid := it.product_id.getD ""
      let nm := it.name.getD ""
      let url := it.product_url.getD ""
      match _parse_price it.price with
      | .error e => .error e
      | .ok p? =>
        let st' : SimpleStore :=
          ⟨upsertProduct st.products pid url nm capturedAt,
           upsertPriceHistory st.price_history pid capturedDate capturedAt p? currency it.stock⟩
        saveGo capturedAt capturedDate currency st' (w + 1) rest

/-- `SimpleFetcher.save_products_to_sqlite(items, currency)`.
`captured_at` / `captured_date` are derived from `datetime.now` and are taken
as parameters.  On an exception the connection context manager rolls back, so
the store is returned unchanged together with the error. -/
def save_products_to_sqlite (st : SimpleStore) (capturedAt capturedDate currency : String)
    (items : List SimpleRecord) : SimpleStore × Except PyErr ℕ :=
  match saveGo capturedAt capturedDate currency st 0 items with
  | .ok (st', w) => (st', .ok w)
  | .error e => (st, .error e)

end SimpleFetcher

/-! ## CardrushFetcher (cardrushFetcher.py) -/

/-- A record produced by `CardrushFetcher.parse_products`, plus the
`series_code` tag attached by `crawl_series` and the `url` key that
`save_products_to_sqlite` also consults (`it.get("url")`). -/
structure CardrushRecord where
  product_id : Option String
  name_full : Option String
  name : Option String
  condition : Option String
  model_number : Option String
  set_size : Option String
  model_code : Option String
  price : Option String
  product_url : Option String
  url : Option String
  series_code : Option String
deriving DecidableEq

/-- A row of the `products_cardrush` table.  Its DDL is not in the repository;
the column list and the `ON CONFLICT(product_id)` target are read off the
INSERT statement in `save_products_to_sqlite`. -/
structure CardrushProductRow where
  product_id : String
  product_group : String
  model_number : String
  set_size : Option String
  name : String
  name_full : String
  condition : Option String
  model_code : Option String
  price_yen : ℕ
  url : String
  created_at : String
  updated_at : String
deriving DecidableEq

/-- A row of the `prices_cardrush` table (history snapshots). -/
structure CardrushPriceRow where
  product_id : String
  observed_at : String
  price_yen : ℕ
deriving DecidableEq

/-- The SQLite store touched by `CardrushFetcher.save_products_to_sqlite`. -/
structure CardrushStore where
  products : List CardrushProductRow
  prices : List CardrushPriceRow
deriving DecidableEq

/-- Modelled from the spec: the DDL of `prices_cardrush` is absent from the
repository (only the plain `INSERT INTO prices_cardrush` exists).  Spec §6
gives the history schema `PRIMARY KEY(entity_id, observation_bucket)` with the
bucket being `observed_at` for this variant, so a plain INSERT conflicts —
raising `sqlite3.IntegrityError` — exactly when a row with the same
`(product_id, observed_at)` is already present. -/
def pricesCardrushConflict (prices : List CardrushPriceRow) (pid observedAt : String) : Bool :=
  prices.any (fun r => r.product_id == pid && r.observed_at == observedAt)

namespace CardrushFetcher

/-- The per-item loop body of `CardrushFetcher.save_products_to_sqlite`.
Note the source order: `_parse_price` runs *before* the required-field
validation, so a raising price text aborts the batch even for otherwise
invalid records. -/
def saveGo (productGroup observedAt : String) :
    CardrushStore → ℕ → List CardrushRecord → Except PyErr (CardrushStore × ℕ)
  | st, w, [] => .ok (st, w)
  | st, w, it :: rest =>
    let url := pyOr it.product_url it.url
    match _parse_price it.price with
    | .error e => .error e
    | .ok priceYen? =>
      if pyFalsy it.product_id || pyFalsy url || pyFalsy it.name || pyFalsy it.name_full then
        saveGo productGroup observedAt st w rest
      else if pyFalsy it.model_number then
        saveGo productGroup observedAt st w rest
      else
        match priceYen? with
        | none => saveGo productGroup observedAt st w rest
        | some py =>
          let pid := it.product_id.getD ""
          let mkRow : CardrushProductRow :=
            ⟨pid, productGroup, it.model_number.getD "", it.set_size,
             it.name.getD "", it.name_full.getD "", it.condition, it.model_code,
             py, url.getD "", observedAt, observedAt⟩
          let products' :=
            upsertBy (fun r => r.product_id)
              (fun old => { mkRow with created_at := old.created_at })
              mkRow st.products
          if pricesCardrushConflict st.prices pid observedAt then
            .error .integrityError
          else
            saveGo productGroup observedAt
              ⟨products', st.prices ++ [⟨pid, observedAt, py⟩]⟩ (w + 1) rest

/-- `CardrushFetcher.save_products_to_sqlite(items)`.  `observed_at` comes
from `datetime.now` and is a parameter; `product_group` is the instance
attribute set by the last `fetch_html` (`None` when never fetched or when the
URL had no `/product-group/<digits>` segment).  A falsy `product_group`
raises `RuntimeError` before the database is opened; any exception rolls the
batch back, leaving the store unchanged. -/
def save_products_to_sqlite (st : CardrushStore) (productGroup : Option String)
    (observedAt : String) (items : List CardrushRecord) : CardrushStore × Except PyErr ℕ :=
  if pyFalsy productGroup then (st, .error .runtimeError)
  else
    match saveGo (productGroup.getD "") observedAt st 0 items with
    | .ok (st', w) => (st', .ok w)
    | .error e => (st, .error e)

end CardrushFetcher

/-- The `re.search(r"/product-group/(\d+)", url)` step of
`CardrushFetcher.fetch_html`: the first position where the literal
`/product-group/` is followed by at least one digit; the captured group is the
maximal digit run after the literal. -/
def findProductGroup : List Char → Option String
  | [] => none
  | c :: cs =>
    if "/product-group/".data.isPrefixOf (c :: cs) then
      let ds := ((c :: cs).drop 15).takeWhile Char.isDigit
      if ds.isEmpty then findProductGroup cs else some (String.mk ds)
    else findProductGroup cs

/-- The `self.product_group` value that `CardrushFetcher.fetch_html(url)`
leaves on the instance: `match.group(1)` when the regex matches, else `None`. -/
def extract_product_group (url : String) : Option String :=
  findProductGroup url.data

/-- `getattr(self, "product_group", None)` on a freshly constructed
`CardrushFetcher`: `__init__` never sets the attribute, so persistence invoked
before any fetch reads `None`. -/
def initialProductGroup : Option String := none

/-! ## Traversal controller (download_cardrush.py, `crawl_series`)

The fetch-and-extract of one page index (the HTTP part of
`fetcher.fetch_html` followed by `fetcher.parse_products`) is abstracted as
an oracle `pages : ℕ → Except PyErr (List CardrushRecord)`; extraction is
pure and total, so the only error source there is the transport.  The loop
body wraps nothing in `try`, so an exception from either the fetch or
`save_products_to_sqlite` propagates and aborts the series (`fetchAbort` /
`saveAbort`).  Persistence is the real `CardrushFetcher` save: each
iteration's `fetch_html(page_url)` plants the page URL's
`/product-group/<digits>` segment in `product_group` before the save reads
it, each save call gets its own `datetime.now` stamp (`observedAt i`), and
the store threads through the loop.  The batches successfully handed to
persistence are also accumulated with their page index, and the fetch
counter instruments how many fetch attempts were made. -/

/-- A page fingerprint: the `(product_id, product_url)` pair of the first
record (`page_fingerprint` returns `None` for an empty page). -/
abbrev Fp := Option String × Option String

/-- `page_fingerprint(items)`. -/
def page_fingerprint (items : List CardrushRecord) : Option Fp :=
  items.head?.map (fun first => (first.product_id, first.product_url))

/-- `item["series_code"] = series_code`. -/
def tagSeries (sc : String) (r : CardrushRecord) : CardrushRecord :=
  { r with series_code := some sc }

/-- Python `str.rstrip("/")`: drop all trailing slashes. -/
def rstripSlash (s : String) : String :=
  String.mk ((s.data.reverse.dropWhile (fun c => c == '/')).reverse)

/-- `build_page_url(base_url, page_index, page_size=100)`
(download_cardrush.py).  The relative part `0/photo?num=…&page=…` carries no
scheme and no leading slash, and the base handed to `urljoin` ends in a
single `/`, so `urljoin` resolves it by plain concatenation. -/
def build_page_url (baseUrl : String) (pageIndex : ℕ) : String :=
  rstripSlash baseUrl ++ "/0/photo?num=100&page=" ++ toString pageIndex

/-- How a `crawl_series` run ended. -/
inductive CrawlOutcome
  | emptyStop (i : ℕ)          -- page i had no items: "Empty page ..., stop paging."
  | loopStop (i : ℕ)           -- page i's fingerprint equals page 1's
  | maxStop                    -- the `range(1, max_pages + 1)` loop ran out
  | fetchAbort (i : ℕ)         -- `fetch_html` raised at page i, nothing caught it
  | saveAbort (i : ℕ) (e : PyErr)  -- `save_products_to_sqlite` raised at page i
deriving DecidableEq

/-- Observable result of a `crawl_series` run: how it ended, the final
store, the tagged batches persistence accepted (with their page index), and
the number of fetch attempts. -/
structure CrawlResult where
  outcome : CrawlOutcome
  store : CardrushStore
  saved : List (ℕ × List CardrushRecord)
  fetches : ℕ
deriving DecidableEq

/-- The fetch-side-effect-plus-save of one accepted page `i` of
`crawl_series`: `fetch_html(build_page_url(base_url, i))` sets
`product_group` from the page URL, then `save_products_to_sqlite` persists
the series-tagged batch under this call's `datetime.now` stamp. -/
def crawlStep (sc baseUrl : String) (observedAt : ℕ → String) (i : ℕ)
    (store : CardrushStore) (items : List CardrushRecord) :
    CardrushStore × Except PyErr ℕ :=
  CardrushFetcher.save_products_to_sqlite store
    (extract_product_group (build_page_url baseUrl i)) (observedAt i)
    (items.map (tagSeries sc))

/-- The loop of `crawl_series`, fuel counting the remaining iterations of
`range(1, max_pages + 1)`; `firstFp` is the `first_page_fp` variable.  A
save exception ends the run with `saveAbort` (the rolled-back store is
carried along). -/
def crawlGo (pages : ℕ → Except PyErr (List CardrushRecord))
    (sc baseUrl : String) (observedAt : ℕ → String) :
    Option Fp → ℕ → ℕ → CardrushStore → List (ℕ × List CardrushRecord) → ℕ →
    CrawlResult
  | _, _, 0, store, saved, fetches => ⟨.maxStop, store, saved, fetches⟩
  | firstFp, i, fuel + 1, store, saved, fetches =>
    match pages i with
    | .error _ => ⟨.fetchAbort i, store, saved, fetches + 1⟩
    | .ok items =>
      if items = [] then ⟨.emptyStop i, store, saved, fetches + 1⟩
      else
        let fp := page_fingerprint items
        if i = 1 then
          match (crawlStep sc baseUrl observedAt i store items).2 with
          | .ok _ =>
            crawlGo pages sc baseUrl observedAt fp (i + 1) fuel
              (crawlStep sc baseUrl observedAt i store items).1
              (saved ++ [(i, items.map (tagSeries sc))]) (fetches + 1)
          | .error e =>
            ⟨.saveAbort i e, (crawlStep sc baseUrl observedAt i store items).1,
             saved, fetches + 1⟩
        else if fp = firstFp then
          ⟨.loopStop i, store, saved, fetches + 1⟩
        else
          match (crawlStep sc baseUrl observedAt i store items).2 with
          | .ok _ =>
            crawlGo pages sc baseUrl observedAt firstFp (i + 1) fuel
              (crawlStep sc baseUrl observedAt i store items).1
              (saved ++ [(i, items.map (tagSeries sc))]) (fetches + 1)
          | .error e =>
            ⟨.saveAbort i e, (crawlStep sc baseUrl observedAt i store items).1,
             saved, fetches + 1⟩

/-- `crawl_series(fetcher, series_code, base_url, max_pages)`:
pages 1, 2, ... are visited in order, `first_page_fp` starts as `None`,
the fetcher's store starts as `store0`, and `observedAt i` is the
`datetime.now` value of page `i`'s save. -/
def crawl_series (pages : ℕ → Except PyErr (List CardrushRecord))
    (sc baseUrl : String) (maxPages : ℕ) (store0 : CardrushStore)
    (observedAt : ℕ → String) : CrawlResult :=
  crawlGo pages sc baseUrl observedAt none 1 maxPages store0 [] 0

/-- The store after `crawl_series` has accepted and saved `k` consecutive
pages (with items `its`) starting at page index `i` from `store`. -/
def storeFrom (sc baseUrl : String) (observedAt : ℕ → String)
    (its : ℕ → List CardrushRecord) : ℕ → CardrushStore → ℕ → CardrushStore
  | _, store, 0 => store
  | i, store, k + 1 =>
    storeFrom sc baseUrl observedAt its (i + 1)
      (crawlStep sc baseUrl observedAt i store (its i)).1 k

/-! ## LimitlessFetcher (limitlessFetcher.py) and its driver
(full_process_limitless.py) -/

/-- A row of the `cards_index` table (`ensure_cards_index_table`):
`card_id INTEGER PRIMARY KEY`, nullable `data_id` and `rarity`. -/
structure CardRow where
  card_id : Option String
  data_id : Option String
  lang : String
  set_code : String
  card_code : String
  rarity : Option String
deriving DecidableEq

/-- The `ON CONFLICT(card_id) DO UPDATE` merge of `save_card_index`:
mapping keys always follow the incoming row; `data_id` and `rarity` are
overwritten only when the incoming value is non-null
(`CASE WHEN excluded.x IS NOT NULL THEN excluded.x ELSE cards_index.x END`). -/
def mergeCardRow (new old : CardRow) : CardRow :=
  { card_id := old.card_id
    lang := new.lang
    set_code := new.set_code
    card_code := new.card_code
    data_id := match new.data_id with | some d => some d | none => old.data_id
    rarity := match new.rarity with | some r => some r | none => old.rarity }

/-- The `UNIQUE(lang, set_code, card_code)` key of a `cards_index` row
(limitlessFetcher.py, `ensure_cards_index_table`). -/
def cardKeyTriple (r : CardRow) : String × String × String :=
  (r.lang, r.set_code, r.card_code)

/-- `LimitlessFetcher.save_card_index`, with the fetch-context instance
attributes (`self.lang`, `self.set_code`, `self.card_code`, `self.card_id`,
`self.data_id`, `self.rarity`) passed explicitly.

The INSERT's conflict target is `card_id` only, so only a `card_id` conflict
takes the `DO UPDATE` merge path; a violation of the table's
`UNIQUE(lang, set_code, card_code)` — whether by the fresh insert or by the
updated row landing on another row's key triple — raises
`sqlite3.IntegrityError`, which the connection context manager turns into a
rollback (store unchanged) before the exception propagates.  A `NULL`
`card_id` makes SQLite assign a fresh rowid (modelled as a key-less row that
no explicit `card_id` conflicts with); the UNIQUE triple constraint still
applies to it.  Returns the resulting store and the call's outcome. -/
def save_card_index (store : List CardRow) (lang setCode cardCode : String)
    (cardId dataId rarity : Option String) : List CardRow × Except PyErr Unit :=
  let new : CardRow := ⟨cardId, dataId, lang, setCode, cardCode, rarity⟩
  match cardId with
  | none =>
    if store.any (fun r => decide (cardKeyTriple r = (lang, setCode, cardCode))) then
      (store, .error .integrityError)
    else (store ++ [new], .ok ())
  | some k =>
    match store.find? (fun r => decide (r.card_id = some k)) with
    | none =>
      if store.any (fun r => decide (cardKeyTriple r = (lang, setCode, cardCode))) then
        (store, .error .integrityError)
      else (store ++ [new], .ok ())
    | some _ =>
      if store.any (fun r => decide (r.card_id ≠ some k ∧
          cardKeyTriple r = (lang, setCode, cardCode))) then
        (store, .error .integrityError)
      else
        (store.map (fun r => if r.card_id = some k then mergeCardRow new r else r),
         .ok ())

/-- The `(card_id, data_id, rarity)` triple that `extract_rarity` stashes on
the instance for `save_card_index` to read. -/
structure CardInfo where
  card_id : Option String
  data_id : Option String
  rarity : Option String
deriving DecidableEq

/-- One log line of the limitless enumeration loop. -/
inductive LEvent
  | skip (i : ℕ)    -- "[SKIP] ... fetch failed", loop continues
  | saved (i : ℕ)   -- fetch succeeded, extract_rarity + save_card_index ran
deriving DecidableEq

/-- The inner loop of `full_process_limitless.main` for one series:
`for card_code in range(1, size + 1)`, the `try` covering only `fetch_html`;
a fetch failure is logged and the loop continues with the next index.
`save_card_index` is *outside* the `try`, so an exception it raises (e.g.
`IntegrityError` on the UNIQUE triple) propagates and kills the loop: the
result carries the store, the events of the processed prefix, and the
uncaught error if one occurred. -/
def limitlessGo (fetchO : ℕ → Except PyErr String) (extractO : String → CardInfo)
    (lang setCode : String) :
    ℕ → ℕ → List CardRow → List CardRow × List LEvent × Option PyErr
  | _, 0, store => (store, [], none)
  | i, fuel + 1, store =>
    match fetchO i with
    | .error _ =>
      let r := limitlessGo fetchO extractO lang setCode (i + 1) fuel store
      (r.1, .skip i :: r.2.1, r.2.2)
    | .ok html =>
      let info := extractO html
      let sv := save_card_index store lang setCode (toString i)
        info.card_id info.data_id info.rarity
      match sv.2 with
      | .ok _ =>
        let r := limitlessGo fetchO extractO lang setCode (i + 1) fuel sv.1
        (r.1, .saved i :: r.2.1, r.2.2)
      | .error e => (sv.1, [], some e)

/-- One series iteration of `full_process_limitless.main`:
card indices 1..size. -/
def limitless_series (fetchO : ℕ → Except PyErr String) (extractO : String → CardInfo)
    (lang setCode : String) (size : ℕ) (store : List CardRow) :
    List CardRow × List LEvent × Option PyErr :=
  limitlessGo fetchO extractO lang setCode 1 size store

/-! ## Concrete fixtures for witnesses and counterexamples -/

/-- A complete cardrush record (page-1 item "A"). -/
def recA : CardrushRecord :=
  ⟨some "A", some "fullA", some "cardA", none, some "001", none, none,
   some "100円", some "urlA", none, none⟩

/-- A complete cardrush record (page-2 item "B"). -/
def recB : CardrushRecord :=
  ⟨some "B", some "fullB", some "cardB", none, some "002", none, none,
   some "200円", some "urlB", none, none⟩

/-- A complete cardrush record (page-3 item "C"). -/
def recC : CardrushRecord :=
  ⟨some "C", some "fullC", some "cardC", none, some "003", none, none,
   some "300円", some "urlC", none, none⟩

/-- A complete cardrush record whose price text is `",円"`. -/
def recComma : CardrushRecord :=
  ⟨some "A", some "fullA", some "cardA", none, some "001", none, none,
   some ",円", some "urlA", none, none⟩

/-- A page sequence where page 4 redisplays page 1 (the spec's loop
scenario); pages beyond 4 would be empty. -/
def loopPages : ℕ → Except PyErr (List CardrushRecord) := fun j =>
  if j = 1 then .ok [recA]
  else if j = 2 then .ok [recB]
  else if j = 3 then .ok [recC]
  else if j = 4 then .ok [recA]
  else .ok []

/-- A page sequence where the fetch of page 3 raises a transport error and
every other page is fine and distinct. -/
def abortPages : ℕ → Except PyErr (List CardrushRecord) := fun j =>
  if j = 3 then .error .transportError
  else if j = 1 then .ok [recA]
  else if j = 2 then .ok [recB]
  else .ok [recC]

/-- Three distinct non-empty pages for the max-pages scenario. -/
def fullPages : ℕ → Except PyErr (List CardrushRecord) := fun j =>
  if j = 1 then .ok [recA] else if j = 2 then .ok [recB] else .ok [recC]

/-- A page sequence where page 3 comes back empty. -/
def emptyAt3Pages : ℕ → Except PyErr (List CardrushRecord) := fun j =>
  if j = 1 then .ok [recA] else if j = 2 then .ok [recB] else .ok []

/-- A complete SimpleFetcher record. -/
def srOk : SimpleRecord :=
  ⟨some "P1", some "NameOne", some "001", some "1,500円", some "stock 2",
   some "urlP1", none, none⟩

/-- A SimpleFetcher record with no price text at all. -/
def srNoPrice : SimpleRecord :=
  ⟨some "P1", some "NameOne", some "001", none, none, some "urlP1", none, none⟩

/-- A cardrush record with no price text at all. -/
def crNoPrice : CardrushRecord :=
  ⟨some "A", some "fullA", some "cardA", none, some "001", none, none,
   none, some "urlA", none, none⟩

/-- A SimpleFetcher record whose price text is `",円"`. -/
def srComma : SimpleRecord :=
  ⟨some "P1", some "NameOne", some "001", some ",円", none, some "urlP1", none, none⟩

/-- A fetch oracle for the limitless loop that fails only at card index 3. -/
def lfetch3 : ℕ → Except PyErr String := fun i =>
  if i = 3 then .error .transportError else .ok "html"

/-- A fixed extraction result for the limitless loop fixtures. -/
def lextractConst : String → CardInfo := fun _ => ⟨some "77", none, some "C"⟩

/-- A base series URL carrying a `/product-group/<digits>` segment, as the
`series_url_jp` rows for cardrush do. -/
def cardrushBase : String := "https://www.cardrush-pokemon.jp/product-group/268"

/-- Distinct per-page `datetime.now` stamps for the crawl fixtures. -/
def obsTimes : ℕ → String := fun i => "2026-10-12T00:00:0" ++ toString i

/-- Persisting one record twice through `SimpleFetcher.save_products_to_sqlite`
(same `captured_date` bucket, timestamps `t1` then `t2`): the final store and
both written counts. -/
def simplePersistTwice (st : SimpleStore) (t1 t2 d cur : String) (it : SimpleRecord) :
    SimpleStore × Except PyErr ℕ × Except PyErr ℕ :=
  let r1 := SimpleFetcher.save_products_to_sqlite st t1 d cur [it]
  let r2 := SimpleFetcher.save_products_to_sqlite r1.1 t2 d cur [it]
  (r2.1, r1.2, r2.2)

/-- Page-item oracle matching `loopPages`. -/
def loopItems : ℕ → List CardrushRecord := fun j =>
  if j = 1 then [recA] else if j = 2 then [recB] else if j = 3 then [recC]
  else if j = 4 then [recA] else []

/-- Page-item oracle matching `fullPages`. -/
def stairItems : ℕ → List CardrushRecord := fun j =>
  if j = 1 then [recA] else if j = 2 then [recB] else [recC]

/-- Page-item oracle matching `emptyAt3Pages`. -/
def emptyAt3Items : ℕ → List CardrushRecord := fun j =>
  if j = 1 then [recA] else if j = 2 then [recB] else []

/-! ## Generic facts about the keyed upsert -/

theorem upsertBy_find?_self {α κ : Type} [DecidableEq κ] (key : α → κ) (update : α → α)
    (mk : α) (hupd : ∀ r, key r = key mk → key (update r) = key mk) (l : List α) :
    (upsertBy key update mk l).find? (fun r => decide (key r = key mk)) =
      some ((l.find? (fun r => decide (key r = key mk))).elim mk update) := by
  induction l with
  | nil => simp [upsertBy]
  | cons r rs ih =>
    by_cases h : key r = key mk
    · simp [upsertBy, h, List.find?, hupd r h]
    · simp [upsertBy, h, List.find?, ih]

theorem upsertBy_countP {α κ : Type} [DecidableEq κ] (key : α → κ) (update : α → α)
    (mk : α) (hupd : ∀ r, key r = key mk → key (update r) = key mk) (l : List α) :
    (upsertBy key update mk l).countP (fun r => decide (key r = key mk)) =
      max 1 (l.countP (fun r => decide (key r = key mk))) := by
  induction l with
  | nil => simp [upsertBy]
  | cons r rs ih =>
    by_cases h : key r = key mk
    · simp [upsertBy, h, List.countP_cons, hupd r h]
    · simp [upsertBy, h, List.countP_cons, ih]

theorem upsertBy_find?_self' {α κ : Type} [DecidableEq κ] (key : α → κ) (update : α → α)
    (mk : α) (k : κ) (hk : key mk = k)
    (hupd : ∀ r, key r = k → key (update r) = k) (l : List α) :
    (upsertBy key update mk l).find? (fun r => decide (key r = k)) =
      some ((l.find? (fun r => decide (key r = k))).elim mk update) := by
  subst hk
  exact upsertBy_find?_self key update mk hupd l

theorem upsertBy_countP' {α κ : Type} [DecidableEq κ] (key : α → κ) (update : α → α)
    (mk : α) (k : κ) (hk : key mk = k)
    (hupd : ∀ r, key r = k → key (update r) = k) (l : List α) :
    (upsertBy key update mk l).countP (fun r => decide (key r = k)) =
      max 1 (l.countP (fun r => decide (key r = k))) := by
  subst hk
  exact upsertBy_countP key update mk hupd l

theorem countP_key_le_one {α κ : Type} [DecidableEq κ] (key : α → κ) (k : κ)
    (l : List α) (h : (l.map key).Nodup) :
    l.countP (fun r => decide (key r = k)) ≤ 1 := by
  induction l with
  | nil => simp
  | cons r rs ih =>
    simp only [List.map_cons, List.nodup_cons] at h
    by_cases hk : key r = k
    · have hz : rs.countP (fun r => decide (key r = k)) = 0 := by
        rw [List.countP_eq_zero]
        intro a ha
        simp only [decide_eq_true_eq]
        intro hak
        exact h.1 (by
          rw [List.mem_map]
          exact ⟨a, ha, by rw [hak, hk]⟩)
      simp [List.countP_cons, hk, hz]
    · simpa [List.countP_cons, hk] using ih h.2

/-! ## Facts about the traversal controller loop -/

/-- While every page in `[i, i+k)` fetches successfully, is non-empty, has a
fingerprint different from the baseline, and its persistence call succeeds on
the store reached so far, the loop (at index `i ≥ 2`) accepts each page,
persists its tagged batch, and advances. -/
theorem crawlGo_steps (pages : ℕ → Except PyErr (List CardrushRecord))
    (sc baseUrl : String) (observedAt : ℕ → String) (fp1 : Option Fp)
    (its : ℕ → List CardrushRecord) :
    ∀ (k i fuel : ℕ) (store : CardrushStore)
      (saved : List (ℕ × List CardrushRecord)) (fetches : ℕ),
      2 ≤ i → k ≤ fuel →
      (∀ j ∈ List.range' i k, pages j = .ok (its j) ∧ its j ≠ [] ∧
          page_fingerprint (its j) ≠ fp1 ∧
          (crawlStep sc baseUrl observedAt j
            (storeFrom sc baseUrl observedAt its i store (j - i)) (its j)).2.isOk = true) →
      crawlGo pages sc baseUrl observedAt fp1 i fuel store saved fetches =
        crawlGo pages sc baseUrl observedAt fp1 (i + k) (fuel - k)
          (storeFrom sc baseUrl observedAt its i store k)
          (saved ++ (List.range' i k).map (fun j => (j, (its j).map (tagSeries sc))))
          (fetches + k) := by
  intro k
  induction k with
  | zero => intro i fuel store saved fetches _ _ _; simp [storeFrom]
  | succ k ih =>
    intro i fuel store saved fetches h2 hk h
    match fuel, hk with
    | fuel + 1, hk =>
      obtain ⟨hp, hne, hfp, hsv⟩ := h i (by simp [List.range'_succ])
      have hsv' : (crawlStep sc baseUrl observedAt i store (its i)).2.isOk = true := by
        rw [Nat.sub_self] at hsv
        exact hsv
      cases hres : (crawlStep sc baseUrl observedAt i store (its i)).2 with
      | error e =>
        rw [hres] at hsv'
        simp [Except.isOk, Except.toBool] at hsv'
      | ok n =>
        have hstep : crawlGo pages sc baseUrl observedAt fp1 i (fuel + 1) store
            saved fetches =
            crawlGo pages sc baseUrl observedAt fp1 (i + 1) fuel
              (crawlStep sc baseUrl observedAt i store (its i)).1
              (saved ++ [(i, (its i).map (tagSeries sc))]) (fetches + 1) := by
          simp only [crawlGo, hp]
          rw [if_neg hne, if_neg (by omega : ¬ i = 1), if_neg hfp, hres]
        have htrans : ∀ j ∈ List.range' (i + 1) k, pages j = .ok (its j) ∧
            its j ≠ [] ∧ page_fingerprint (its j) ≠ fp1 ∧
            (crawlStep sc baseUrl observedAt j
              (storeFrom sc baseUrl observedAt its (i + 1)
                (crawlStep sc baseUrl observedAt i store (its i)).1 (j - (i + 1)))
              (its j)).2.isOk = true := by
          intro j hj
          have hj' := (List.mem_range'_1).mp hj
          obtain ⟨a, b, c, dd⟩ :=
            h j (by rw [List.range'_succ]; exact List.mem_cons_of_mem _ hj)
          refine ⟨a, b, c, ?_⟩
          have heq : storeFrom sc baseUrl observedAt its i store (j - i) =
              storeFrom sc baseUrl observedAt its (i + 1)
                (crawlStep sc baseUrl observedAt i store (its i)).1 (j - (i + 1)) := by
            rw [show j - i = (j - (i + 1)) + 1 from by omega]
            rfl
          rw [heq] at dd
          exact dd
        rw [hstep, ih (i + 1) fuel _ _ _ (by omega) (by omega) htrans]
        rw [show storeFrom sc baseUrl observedAt its i store (k + 1) =
            storeFrom sc baseUrl observedAt its (i + 1)
              (crawlStep sc baseUrl observedAt i store (its i)).1 k from rfl]
        rw [List.range'_succ]
        simp only [List.map_cons, List.append_assoc, List.singleton_append]
        congr 1 <;> omega

/-- The loop performs at most `fuel` further fetch attempts. -/
theorem crawlGo_fetches_le (pages : ℕ → Except PyErr (List CardrushRecord))
    (sc baseUrl : String) (observedAt : ℕ → String) :
    ∀ (fuel : ℕ) (fp : Option Fp) (i : ℕ) (store : CardrushStore)
      (saved : List (ℕ × List CardrushRecord)) (fetches : ℕ),
      (crawlGo pages sc baseUrl observedAt fp i fuel store saved fetches).fetches ≤
        fetches + fuel := by
  intro fuel
  induction fuel with
  | zero => intro fp i store saved fetches; simp [crawlGo]
  | succ fuel ih =>
    intro fp i store saved fetches
    cases hp : pages i with
    | error e =>
      simp only [crawlGo, hp]
      omega
    | ok items =>
      by_cases hne : items = []
      · simp only [crawlGo, hp, if_pos hne]
        omega
      · by_cases h1 : i = 1
        · simp only [crawlGo, hp, if_neg hne, if_pos h1]
          cases hres : (crawlStep sc baseUrl observedAt i store items).2 with
          | ok n =>
            calc _ ≤ (fetches + 1) + fuel := ih _ _ _ _ _
              _ = fetches + (fuel + 1) := by omega
          | error e =>
            show fetches + 1 ≤ fetches + (fuel + 1)
            omega
        · by_cases hfp : page_fingerprint items = fp
          · simp only [crawlGo, hp, if_neg hne, if_neg h1, if_pos hfp]
            omega
          · simp only [crawlGo, hp, if_neg hne, if_neg h1, if_neg hfp]
            cases hres : (crawlStep sc baseUrl observedAt i store items).2 with
            | ok n =>
              calc _ ≤ (fetches + 1) + fuel := ih _ _ _ _ _
                _ = fetches + (fuel + 1) := by omega
            | error e =>
              show fetches + 1 ≤ fetches + (fuel + 1)
              omega

/-! ## Facts about the limitless enumeration loop -/

/-- As long as no save raised, the event log of the limitless loop is one
entry per index of `range(1, size + 1)` (restated from index `i` with `fuel`
remaining), determined solely by whether that index's fetch succeeded — the
`continue` in the `except` branch never drops a later index. -/
theorem limitlessGo_snd (fetchO : ℕ → Except PyErr String) (extractO : String → CardInfo)
    (lang setCode : String) :
    ∀ (fuel i : ℕ) (store : List CardRow),
      (limitlessGo fetchO extractO lang setCode i fuel store).2.2 = none →
      (limitlessGo fetchO extractO lang setCode i fuel store).2.1 =
        (List.range' i fuel).map
          (fun j => match fetchO j with
            | .ok _ => LEvent.saved j
            | .error _ => LEvent.skip j) := by
  intro fuel
  induction fuel with
  | zero => intro i store _; simp [limitlessGo]
  | succ fuel ih =>
    intro i store hnone
    rw [List.range'_succ i fuel 1]
    cases hf : fetchO i with
    | error e =>
      simp only [limitlessGo, hf] at hnone ⊢
      simp [ih (i + 1) store hnone, hf]
    | ok html =>
      cases hres : (save_card_index store lang setCode (toString i)
          (extractO html).card_id (extractO html).data_id (extractO html).rarity).2 with
      | error e =>
        simp only [limitlessGo, hf, hres] at hnone
        exact absurd hnone (by simp)
      | ok u =>
        simp only [limitlessGo, hf, hres] at hnone ⊢
        simp [ih (i + 1) _ hnone, hf]

/-- If a list has no `[\d,]` character at all, the regex search fails. -/
theorem firstPriceRun_eq_none (l : List Char) (h : ∀ c ∈ l, isPriceChar c = false) :
    firstPriceRun l = none := by
  induction l with
  | nil => rfl
  | cons c cs ih =>
    have hc := h c (List.mem_cons_self c cs)
    simp only [firstPriceRun, hc, Bool.false_eq_true, if_false]
    exact ih fun c' hc' => h c' (List.mem_cons_of_mem _ hc')

/-! ## Claims -/

/-- C8 (counterexample): the string `",円"` contains no decimal digit at all
(by Python's Unicode `\d`), hence no digit run, yet the parser does not
return null: the regex matches the lone comma, `"".replace` keeps it empty,
and `float("")` raises `ValueError`. -/
theorem C8_counterexample :
    ",円".data.any isPyDigit = false ∧
      _parse_price (some ",円") = .error .valueError := by
  constructor
  · decide
  · rfl

/-- C8 (amended): `"79,800円"` parses to `79800`; `None` and `""` parse to
null; and every input containing neither a Unicode decimal digit nor a comma
parses to null — where "digit" is Python's `\d`, so the fullwidth `"１円"`
*does* carry a digit and parses to `1`, not null.  (Inputs whose first
digit-or-comma run is all commas raise `ValueError` instead of returning
null — see the counterexample.) -/
theorem C8_amended_price_parse (s : String)
    (hs : ∀ c ∈ s.data, isPriceChar c = false) :
    _parse_price (some "79,800円") = .ok (some 79800) ∧
      _parse_price (some "１円") = .ok (some 1) ∧
      _parse_price none = .ok none ∧
      _parse_price (some "") = .ok none ∧
      _parse_price (some s) = .ok none := by
  refine ⟨by rfl, by rfl, by rfl, by rfl, ?_⟩
  unfold _parse_price
  by_cases he : s.isEmpty
  · simp [he]
  · simp [he, firstPriceRun_eq_none s.data hs]

/-- C8 (witness): the amended parser property at the digit-and-comma-free
input `"no price"`. -/
theorem C8_amended_price_parse_witness :
    _parse_price (some "no price") = .ok none :=
  (C8_amended_price_parse "no price" (by decide)).2.2.2.2

/-- C9: the parser is not total.  For `",円"` the first maximal digit-or-comma
run is the lone comma, stripping commas leaves the empty string, and the
numeric conversion raises `ValueError`; a persistence call on a record bearing
that price text crashes (rolling its batch back) instead of skipping the
record — in both fetcher variants. -/
theorem C9_parser_not_total :
    firstPriceRun ",円".data = some [','] ∧
      _parse_price (some ",円") = .error .valueError ∧
      SimpleFetcher.save_products_to_sqlite ⟨[], []⟩ "t1" "d1" "JPY" [srComma] =
        (⟨[], []⟩, .error .valueError) ∧
      CardrushFetcher.save_products_to_sqlite ⟨[], []⟩ (some "268") "T0" [recComma] =
        (⟨[], []⟩, .error .valueError) := by
  refine ⟨by rfl, by rfl, by rfl, by rfl⟩

/-- C10: `CardrushFetcher.save_products_to_sqlite` reads the `product_group`
instance attribute that each `fetch_html` sets from the URL's
`/product-group/<digits>` segment.  On a fresh instance the attribute reads
`None`; a URL without the segment (or with a non-numeric segment) also yields
`None`; and persistence invoked with a `None` product group raises
`RuntimeError` before the database is opened, leaving the store unchanged. -/
theorem C10_product_group_side_channel :
    initialProductGroup = none ∧
      extract_product_group "https://www.cardrush-pokemon.jp/product-group/268" =
        some "268" ∧
      extract_product_group "https://www.cardrush-pokemon.jp/" = none ∧
      extract_product_group "https://x.jp/product-group/abc" = none ∧
      (∀ (st : CardrushStore) (t : String) (items : List CardrushRecord),
        CardrushFetcher.save_products_to_sqlite st initialProductGroup t items =
          (st, .error .runtimeError)) ∧
      (∀ (st : CardrushStore) (t : String) (items : List CardrushRecord),
        CardrushFetcher.save_products_to_sqlite st
          (extract_product_group "https://www.cardrush-pokemon.jp/") t items =
          (st, .error .runtimeError)) := by
  refine ⟨rfl, by decide, by decide, by decide, ?_, ?_⟩
  · intro st t items; rfl
  · intro st t items
    have h : extract_product_group "https://www.cardrush-pokemon.jp/" = none := by decide
    rw [h]
    rfl

/-- C4 (counterexample): `SimpleFetcher.save_products_to_sqlite` does not skip
a record whose price parses to null: the record is upserted into `products`,
a `price_history` row is written with a NULL price, and the written count
includes it. -/
theorem C4_counterexample :
    SimpleFetcher.save_products_to_sqlite ⟨[], []⟩ "t1" "d1" "JPY" [srNoPrice] =
      (⟨[⟨"P1", "urlP1", "NameOne", "t1", "t1"⟩],
        [⟨"P1", "d1", "t1", none, "JPY", none⟩]⟩, .ok 1) := by
  rfl

/-- C4 (amended): only `CardrushFetcher`'s persistence skips a record whose
price text parses to null (the record touches neither table and the count
excludes it); `SimpleFetcher`'s persistence tolerates a null price, writing
the record to both tables (with a NULL price in the history row) and counting
it. -/
theorem C4_amended_null_price (st : CardrushStore) (pg : Option String) (t : String)
    (it : CardrushRecord) (rest : List CardrushRecord)
    (hp : _parse_price it.price = .ok none) :
    CardrushFetcher.save_products_to_sqlite st pg t (it :: rest) =
      CardrushFetcher.save_products_to_sqlite st pg t rest ∧
    ∀ (st' : SimpleStore) (t' d cur : String) (it' : SimpleRecord),
      pyFalsy it'.product_id = false → pyFalsy it'.name = false →
      pyFalsy it'.product_url = false → _parse_price it'.price = .ok none →
      SimpleFetcher.save_products_to_sqlite st' t' d cur [it'] =
        (⟨upsertProduct st'.products (it'.product_id.getD "") (it'.product_url.getD "")
            (it'.name.getD "") t',
          upsertPriceHistory st'.price_history (it'.product_id.getD "") d t' none cur
            it'.stock⟩, .ok 1) := by
  constructor
  · unfold CardrushFetcher.save_products_to_sqlite
    by_cases hpg : pyFalsy pg
    · simp [hpg]
    · have hgo : ∀ (st0 : CardrushStore) (w : ℕ),
          CardrushFetcher.saveGo (pg.getD "") t st0 w (it :: rest) =
            CardrushFetcher.saveGo (pg.getD "") t st0 w rest := by
        intro st0 w
        simp only [CardrushFetcher.saveGo, hp]
        split
        · rfl
        · split <;> rfl
      simp only [hgo]
  · intro st' t' d cur it' h1 h2 h3 hp'
    unfold SimpleFetcher.save_products_to_sqlite
    have hgo : SimpleFetcher.saveGo t' d cur st' 0 [it'] =
        .ok (⟨upsertProduct st'.products (it'.product_id.getD "") (it'.product_url.getD "")
            (it'.name.getD "") t',
          upsertPriceHistory st'.price_history (it'.product_id.getD "") d t' none cur
            it'.stock⟩, 1) := by
      simp only [SimpleFetcher.saveGo, h1, h2, h3, hp', Bool.or_self, Bool.false_eq_true,
        if_false]
    rw [hgo]

/-- C4 (witness): the amended behaviour at concrete inputs — the cardrush
variant drops the priceless record, the simple variant writes it. -/
theorem C4_amended_null_price_witness :
    (CardrushFetcher.save_products_to_sqlite ⟨[], []⟩ (some "268") "T0" [crNoPrice] =
      CardrushFetcher.save_products_to_sqlite ⟨[], []⟩ (some "268") "T0" []) ∧
    SimpleFetcher.save_products_to_sqlite ⟨[], []⟩ "t1" "d1" "JPY" [srNoPrice] =
      (⟨upsertProduct [] "P1" "urlP1" "NameOne" "t1",
        upsertPriceHistory [] "P1" "d1" "t1" none "JPY" none⟩, .ok 1) :=
  ⟨(C4_amended_null_price ⟨[], []⟩ (some "268") "T0" crNoPrice [] rfl).1,
   (C4_amended_null_price ⟨[], []⟩ (some "268") "T0" crNoPrice [] rfl).2
     ⟨[], []⟩ "t1" "d1" "JPY" srNoPrice rfl rfl rfl rfl⟩

/-- Replacing (via `DO UPDATE`) the row keyed `card_id = k` finds the merged
row for that key afterwards, and nothing when the key was absent. -/
theorem find?_map_mergeCardRow (store : List CardRow) (k : String) (new : CardRow) :
    (store.map (fun r => if r.card_id = some k then mergeCardRow new r else r)).find?
        (fun r => decide (r.card_id = some k)) =
      (store.find? (fun r => decide (r.card_id = some k))).map
        (fun r => mergeCardRow new r) := by
  induction store with
  | nil => rfl
  | cons a l ih =>
    by_cases ha : a.card_id = some k
    · have hm : (mergeCardRow new a).card_id = some k := by
        simp [mergeCardRow, ha]
      rw [List.map_cons, if_pos ha,
        List.find?_cons_of_pos _ (by simp [hm]),
        List.find?_cons_of_pos _ (by simp [ha])]
      rfl
    · rw [List.map_cons, if_neg ha,
        List.find?_cons_of_neg _ (by simp [ha]),
        List.find?_cons_of_neg _ (by simp [ha])]
      exact ih

/-- After a *successful* `save_card_index` for `card_id = k`, a row for `k`
is present and carries the non-null attributes just written. -/
theorem find?_save_card_index_ok (store : List CardRow)
    (lang setCode cardCode k d r : String)
    (h : (save_card_index store lang setCode cardCode (some k) (some d) (some r)).2 =
      .ok ()) :
    ∃ row : CardRow,
      (save_card_index store lang setCode cardCode (some k) (some d) (some r)).1.find?
        (fun row => decide (row.card_id = some k)) = some row ∧
      row.data_id = some d ∧ row.rarity = some r := by
  cases hf0 : store.find? (fun row => decide (row.card_id = some k)) with
  | none =>
    by_cases hany : store.any
        (fun r => decide (cardKeyTriple r = (lang, setCode, cardCode))) = true
    · have herr : (save_card_index store lang setCode cardCode
          (some k) (some d) (some r)).2 = .error .integrityError := by
        simp only [save_card_index, hf0]
        rw [if_pos hany]
      rw [herr] at h
      exact absurd h (by simp)
    · refine ⟨⟨some k, some d, lang, setCode, cardCode, some r⟩, ?_, rfl, rfl⟩
      have hstep : (save_card_index store lang setCode cardCode
          (some k) (some d) (some r)).1 =
          store ++ [⟨some k, some d, lang, setCode, cardCode, some r⟩] := by
        simp only [save_card_index, hf0]
        rw [if_neg hany]
      rw [hstep, List.find?_append, hf0]
      simp
  | some old =>
    by_cases hany : store.any (fun r => decide (r.card_id ≠ some k ∧
        cardKeyTriple r = (lang, setCode, cardCode))) = true
    · have herr : (save_card_index store lang setCode cardCode
          (some k) (some d) (some r)).2 = .error .integrityError := by
        simp only [save_card_index, hf0]
        rw [if_pos hany]
      rw [herr] at h
      exact absurd h (by simp)
    · have hstep : (save_card_index store lang setCode cardCode
          (some k) (some d) (some r)).1 =
          store.map (fun row => if row.card_id = some k then
            mergeCardRow ⟨some k, some d, lang, setCode, cardCode, some r⟩ row
            else row) := by
        simp only [save_card_index, hf0]
        rw [if_neg hany]
      refine ⟨mergeCardRow ⟨some k, some d, lang, setCode, cardCode, some r⟩ old,
        ?_, rfl, rfl⟩
      rw [hstep, find?_map_mergeCardRow, hf0]
      rfl

/-- C5: in `LimitlessFetcher.save_card_index`, an incoming null for an
independently-fetched optional attribute (`data_id`, `rarity`) never clobbers
a stored non-null value.  After a successful persist of `card_id = k` with
`data_id = d` and `rarity = r`, persisting the same `card_id` with both
attributes null leaves the stored `data_id = d` and `rarity = r`: either the
second call's `DO UPDATE` merge keeps the old non-null values
(`CASE WHEN excluded.x IS NOT NULL`), or the second call violates the
`UNIQUE(lang, set_code, card_code)` triple and rolls back, changing
nothing. -/
theorem C5_non_clobber_nulls (store : List CardRow)
    (lang1 set1 cc1 lang2 set2 cc2 k d r : String)
    (h1 : (save_card_index store lang1 set1 cc1 (some k) (some d) (some r)).2 =
      .ok ()) :
    (((save_card_index
          (save_card_index store lang1 set1 cc1 (some k) (some d) (some r)).1
          lang2 set2 cc2 (some k) none none).1.find?
        (fun row => decide (row.card_id = some k))).map
      (fun row => (row.data_id, row.rarity))) = some (some d, some r) := by
  obtain ⟨row1, hfind1, hd1, hr1⟩ :=
    find?_save_card_index_ok store lang1 set1 cc1 k d r h1
  set st1 := (save_card_index store lang1 set1 cc1 (some k) (some d) (some r)).1
    with hst1
  by_cases hany : st1.any (fun r => decide (r.card_id ≠ some k ∧
      cardKeyTriple r = (lang2, set2, cc2))) = true
  · have hstep : (save_card_index st1 lang2 set2 cc2 (some k) none none).1 = st1 := by
      simp only [save_card_index, hfind1]
      rw [if_pos hany]
    rw [hstep, hfind1]
    simp [hd1, hr1]
  · have hstep : (save_card_index st1 lang2 set2 cc2 (some k) none none).1 =
        st1.map (fun row => if row.card_id = some k then
          mergeCardRow ⟨some k, none, lang2, set2, cc2, none⟩ row else row) := by
      simp only [save_card_index, hfind1]
      rw [if_neg hany]
    rw [hstep, find?_map_mergeCardRow, hfind1]
    simp [mergeCardRow, hd1, hr1]

/-- C5 (witness): the non-clobber property at a concrete card and the empty
store — persisting `rarity = "Rare"`, `data_id = "d7"` and then nulls leaves
both values stored. -/
theorem C5_non_clobber_nulls_witness :
    (((save_card_index
          (save_card_index [] "en" "BLK" "1" (some "123") (some "d7") (some "Rare")).1
          "en" "BLK" "2" (some "123") none none).1.find?
        (fun row => decide (row.card_id = some "123"))).map
      (fun row => (row.data_id, row.rarity))) = some (some "d7", some "Rare") :=
  C5_non_clobber_nulls [] "en" "BLK" "1" "en" "BLK" "2" "123" "d7" "Rare" (by decide)

/-- C3 (counterexample): `CardrushFetcher`'s history insert has no conflict
handling, so persisting the same record twice with the same `observed_at`
bucket (here: twice in one batch) violates the history key — the call raises
`IntegrityError` and the rolled-back store keeps *zero* rows, not one row per
table with the latest values. -/
theorem C3_counterexample :
    CardrushFetcher.save_products_to_sqlite ⟨[], []⟩ (some "268") "T0" [recA, recA] =
      (⟨[], []⟩, .error .integrityError) := by
  rfl

/-- `products` upsert: the row count for the upserted key becomes positive
and stays at the previous count otherwise. -/
theorem upsertProduct_countP (ps : List ProductRow) (pid u n t : String) :
    (upsertProduct ps pid u n t).countP (fun r => decide (r.product_id = pid)) =
      max 1 (ps.countP (fun r => decide (r.product_id = pid))) :=
  upsertBy_countP' (fun r : ProductRow => r.product_id)
    (fun old => { old with url := u, name := n, updated_at := t })
    (⟨pid, u, n, t, t⟩ : ProductRow) pid rfl (fun _ h => h) ps

/-- `products` upsert: the row found for the upserted key is the fresh row or
the updated old row. -/
theorem upsertProduct_find? (ps : List ProductRow) (pid u n t : String) :
    (upsertProduct ps pid u n t).find? (fun r => decide (r.product_id = pid)) =
      some ((ps.find? (fun r => decide (r.product_id = pid))).elim
        (⟨pid, u, n, t, t⟩ : ProductRow)
        (fun old => { old with url := u, name := n, updated_at := t })) :=
  upsertBy_find?_self' (fun r : ProductRow => r.product_id)
    (fun old => { old with url := u, name := n, updated_at := t })
    (⟨pid, u, n, t, t⟩ : ProductRow) pid rfl (fun _ h => h) ps

/-- `price_history` upsert: the row count for the upserted bucket key becomes
positive and stays at the previous count otherwise. -/
theorem upsertPriceHistory_countP (hs : List PriceHistoryRow) (pid date at_ : String)
    (p? : Option ℕ) (cur : String) (stock : Option String) :
    (upsertPriceHistory hs pid date at_ p? cur stock).countP
        (fun r => decide ((r.product_id, r.captured_date) = (pid, date))) =
      max 1 (hs.countP (fun r => decide ((r.product_id, r.captured_date) = (pid, date)))) :=
  upsertBy_countP' (fun r : PriceHistoryRow => (r.product_id, r.captured_date)) _ _
    (pid, date) rfl (fun _ _ => rfl) hs

/-- `price_history` upsert: the row found for the upserted bucket key carries
exactly the observation fields of the latest call. -/
theorem upsertPriceHistory_find? (hs : List PriceHistoryRow) (pid date at_ : String)
    (p? : Option ℕ) (cur : String) (stock : Option String) :
    (upsertPriceHistory hs pid date at_ p? cur stock).find?
        (fun r => decide ((r.product_id, r.captured_date) = (pid, date))) =
      some ⟨pid, date, at_, p?, cur, stock⟩ := by
  have h := upsertBy_find?_self'
    (fun r : PriceHistoryRow => (r.product_id, r.captured_date))
    (fun _ => (⟨pid, date, at_, p?, cur, stock⟩ : PriceHistoryRow))
    (⟨pid, date, at_, p?, cur, stock⟩ : PriceHistoryRow)
    (pid, date) rfl (fun _ _ => rfl) hs
  rw [show upsertPriceHistory hs pid date at_ p? cur stock =
    upsertBy (fun r : PriceHistoryRow => (r.product_id, r.captured_date))
      (fun _ => (⟨pid, date, at_, p?, cur, stock⟩ : PriceHistoryRow))
      (⟨pid, date, at_, p?, cur, stock⟩ : PriceHistoryRow) hs from rfl, h]
  cases hs.find? (fun r => decide ((r.product_id, r.captured_date) = (pid, date))) with
  | none => rfl
  | some old => rfl

/-- C3 (amended): per-bucket idempotency holds for the `SimpleFetcher`
variant: starting from any store with unique table keys, persisting a valid
record twice with the same `captured_date` bucket succeeds with count 1 both
times and leaves exactly one `products` row for the `product_id` and exactly
one `price_history` row for the bucket, their mutable fields reflecting the
latest call.  (For the `CardrushFetcher` variant only the current-state upsert
is idempotent; its history insert conflicts within a bucket instead of
overwriting — see the counterexample.) -/
theorem C3_amended_idempotency (st : SimpleStore)
    (hwfP : (st.products.map (fun r => r.product_id)).Nodup)
    (hwfH : (st.price_history.map (fun r => (r.product_id, r.captured_date))).Nodup)
    (it : SimpleRecord) (p? : Option ℕ)
    (hid : pyFalsy it.product_id = false) (hnm : pyFalsy it.name = false)
    (hurl : pyFalsy it.product_url = false) (hp : _parse_price it.price = .ok p?)
    (t1 t2 d cur : String) :
    (simplePersistTwice st t1 t2 d cur it).2.1 = .ok 1 ∧
    (simplePersistTwice st t1 t2 d cur it).2.2 = .ok 1 ∧
    (simplePersistTwice st t1 t2 d cur it).1.products.countP
        (fun r => decide (r.product_id = it.product_id.getD "")) = 1 ∧
    (simplePersistTwice st t1 t2 d cur it).1.price_history.countP
        (fun r => decide ((r.product_id, r.captured_date) = (it.product_id.getD "", d))) = 1 ∧
    (∃ c, (simplePersistTwice st t1 t2 d cur it).1.products.find?
        (fun r => decide (r.product_id = it.product_id.getD "")) =
        some ⟨it.product_id.getD "", it.product_url.getD "", it.name.getD "", c, t2⟩) ∧
    (simplePersistTwice st t1 t2 d cur it).1.price_history.find?
        (fun r => decide ((r.product_id, r.captured_date) = (it.product_id.getD "", d))) =
      some ⟨it.product_id.getD "", d, t2, p?, cur, it.stock⟩ := by
  have hgo : ∀ (s : SimpleStore) (t : String),
      SimpleFetcher.save_products_to_sqlite s t d cur [it] =
        (⟨upsertProduct s.products (it.product_id.getD "") (it.product_url.getD "")
            (it.name.getD "") t,
          upsertPriceHistory s.price_history (it.product_id.getD "") d t p? cur it.stock⟩,
         .ok 1) := by
    intro s t
    unfold SimpleFetcher.save_products_to_sqlite
    have h : SimpleFetcher.saveGo t d cur s 0 [it] =
        .ok (⟨upsertProduct s.products (it.product_id.getD "") (it.product_url.getD "")
            (it.name.getD "") t,
          upsertPriceHistory s.price_history (it.product_id.getD "") d t p? cur it.stock⟩,
          1) := by
      simp only [SimpleFetcher.saveGo, hid, hnm, hurl, hp, Bool.or_self,
        Bool.false_eq_true, if_false]
    rw [h]
  have hT : simplePersistTwice st t1 t2 d cur it =
      (⟨upsertProduct (upsertProduct st.products (it.product_id.getD "")
            (it.product_url.getD "") (it.name.getD "") t1) (it.product_id.getD "")
            (it.product_url.getD "") (it.name.getD "") t2,
        upsertPriceHistory (upsertPriceHistory st.price_history (it.product_id.getD "")
            d t1 p? cur it.stock) (it.product_id.getD "") d t2 p? cur it.stock⟩,
       .ok 1, .ok 1) := by
    simp only [simplePersistTwice, hgo]
  rw [hT]
  refine ⟨rfl, rfl, ?_, ?_, ?_, ?_⟩
  · rw [upsertProduct_countP, upsertProduct_countP,
      Nat.max_eq_left (countP_key_le_one (fun r : ProductRow => r.product_id)
        (it.product_id.getD "") st.products hwfP)]
    exact Nat.max_self 1
  · rw [upsertPriceHistory_countP, upsertPriceHistory_countP,
      Nat.max_eq_left (countP_key_le_one
        (fun r : PriceHistoryRow => (r.product_id, r.captured_date))
        ((it.product_id.getD "", d)) st.price_history hwfH)]
    exact Nat.max_self 1
  · rw [upsertProduct_find?, upsertProduct_find?]
    cases hfind : st.products.find?
        (fun r => decide (r.product_id = it.product_id.getD "")) with
    | none => exact ⟨t1, rfl⟩
    | some old =>
      refine ⟨old.created_at, ?_⟩
      have hold : old.product_id = it.product_id.getD "" := by
        have := List.find?_some hfind
        simpa using this
      simp [hold]
  · rw [upsertPriceHistory_find?]

/-- C3 (witness): the amended idempotency at a concrete record and the empty
store. -/
theorem C3_amended_idempotency_witness :
    (simplePersistTwice ⟨[], []⟩ "t1" "t2" "d1" "JPY" srOk).2.1= .ok 1 ∧
    (simplePersistTwice ⟨[], []⟩ "t1" "t2" "d1" "JPY" srOk).2.2 = .ok 1 ∧
    (simplePersistTwice ⟨[], []⟩ "t1" "t2" "d1" "JPY" srOk).1.products.countP
        (fun r => decide (r.product_id = srOk.product_id.getD "")) = 1 ∧
    (simplePersistTwice ⟨[], []⟩ "t1" "t2" "d1" "JPY" srOk).1.price_history.countP
        (fun r => decide ((r.product_id, r.captured_date) = (srOk.product_id.getD "", "d1"))) = 1 ∧
    (simplePersistTwice ⟨[], []⟩ "t1" "t2" "d1" "JPY" srOk).1.price_history.find?
        (fun r => decide ((r.product_id, r.captured_date) = (srOk.product_id.getD "", "d1"))) =
      some ⟨srOk.product_id.getD "", "d1", "t2", some 1500, "JPY", srOk.stock⟩ := by
  have h := C3_amended_idempotency ⟨[], []⟩ (by simp) (by simp) srOk (some 1500)
    rfl rfl rfl rfl "t1" "t2" "d1" "JPY"
  exact ⟨h.1, h.2.1, h.2.2.1, h.2.2.2.1, h.2.2.2.2.2⟩

/-- Accepting page 1 records the baseline fingerprint, persists the tagged
batch (successfully, by hypothesis) and moves to page 2. -/
theorem crawl_series_step1 (pages : ℕ → Except PyErr (List CardrushRecord))
    (sc baseUrl : String) (observedAt : ℕ → String) (store0 : CardrushStore)
    (m : ℕ) (its1 : List CardrushRecord) (hp : pages 1 = .ok its1) (hne : its1 ≠ [])
    (hsv : (crawlStep sc baseUrl observedAt 1 store0 its1).2.isOk = true) :
    crawl_series pages sc baseUrl (m + 1) store0 observedAt =
      crawlGo pages sc baseUrl observedAt (page_fingerprint its1) 2 m
        (crawlStep sc baseUrl observedAt 1 store0 its1).1
        [(1, its1.map (tagSeries sc))] 1 := by
  unfold crawl_series
  cases hres : (crawlStep sc baseUrl observedAt 1 store0 its1).2 with
  | error e =>
    rw [hres] at hsv
    simp [Except.isOk, Except.toBool] at hsv
  | ok n =>
    simp only [crawlGo, hp]
    rw [if_neg hne, if_pos trivial, hres]
    norm_num

/-- C1: if every fetched page is non-empty, each accepted page's persistence
call succeeds, and some page `i > 1` has the same fingerprint as page 1
(while pages 2..i-1 do not), `crawl_series` stops at page `i` with the
loop-stop outcome, having persisted only pages below `i`: no batch for page
`i` reaches persistence and the final store is exactly the store after the
saves of pages 1..i-1. -/
theorem C1_loop_stop (pages : ℕ → Except PyErr (List CardrushRecord))
    (sc baseUrl : String) (observedAt : ℕ → String) (store0 : CardrushStore)
    (maxPages i : ℕ) (its : ℕ → List CardrushRecord)
    (h2 : 2 ≤ i) (hmax : i ≤ maxPages)
    (h1 : pages 1 = .ok (its 1)) (h1ne : its 1 ≠ [])
    (hmid : ∀ j ∈ List.range' 2 (i - 2), pages j = .ok (its j) ∧ its j ≠ [] ∧
        page_fingerprint (its j) ≠ page_fingerprint (its 1))
    (hsave : ∀ j ∈ List.range' 1 (i - 1),
        (crawlStep sc baseUrl observedAt j
          (storeFrom sc baseUrl observedAt its 1 store0 (j - 1)) (its j)).2.isOk = true)
    (hi : pages i = .ok (its i)) (hine : its i ≠ [])
    (hfp : page_fingerprint (its i) = page_fingerprint (its 1)) :
    (crawl_series pages sc baseUrl maxPages store0 observedAt).outcome = .loopStop i ∧
      (∀ b ∈ (crawl_series pages sc baseUrl maxPages store0 observedAt).saved,
        b.1 < i) ∧
      (crawl_series pages sc baseUrl maxPages store0 observedAt).store =
        storeFrom sc baseUrl observedAt its 1 store0 (i - 1) := by
  obtain ⟨m, rfl⟩ : ∃ m, maxPages = m + 1 := ⟨maxPages - 1, by omega⟩
  have hsv1 : (crawlStep sc baseUrl observedAt 1 store0 (its 1)).2.isOk = true :=
    hsave 1 (by rw [List.mem_range'_1]; omega)
  rw [crawl_series_step1 pages sc baseUrl observedAt store0 m (its 1) h1 h1ne hsv1]
  have htrans : ∀ j ∈ List.range' 2 (i - 2), pages j = .ok (its j) ∧ its j ≠ [] ∧
      page_fingerprint (its j) ≠ page_fingerprint (its 1) ∧
      (crawlStep sc baseUrl observedAt j
        (storeFrom sc baseUrl observedAt its 2
          (crawlStep sc baseUrl observedAt 1 store0 (its 1)).1 (j - 2)) (its j)).2.isOk =
        true := by
    intro j hj
    have hj' := (List.mem_range'_1).mp hj
    obtain ⟨a, b, c⟩ := hmid j hj
    refine ⟨a, b, c, ?_⟩
    have hs := hsave j (by rw [List.mem_range'_1]; omega)
    have heq : storeFrom sc baseUrl observedAt its 1 store0 (j - 1) =
        storeFrom sc baseUrl observedAt its 2
          (crawlStep sc baseUrl observedAt 1 store0 (its 1)).1 (j - 2) := by
      rw [show j - 1 = (j - 2) + 1 from by omega]
      rfl
    rw [heq] at hs
    exact hs
  have hsteps := crawlGo_steps pages sc baseUrl observedAt (page_fingerprint (its 1))
    its (i - 2) 2 m (crawlStep sc baseUrl observedAt 1 store0 (its 1)).1
    [(1, (its 1).map (tagSeries sc))] 1 (le_refl 2) (by omega) htrans
  rw [show 2 + (i - 2) = i from by omega] at hsteps
  rw [hsteps]
  obtain ⟨f, hf⟩ : ∃ f, m - (i - 2) = f + 1 := ⟨m - (i - 2) - 1, by omega⟩
  rw [hf]
  have hfinal : crawlGo pages sc baseUrl observedAt (page_fingerprint (its 1)) i (f + 1)
      (storeFrom sc baseUrl observedAt its 2
        (crawlStep sc baseUrl observedAt 1 store0 (its 1)).1 (i - 2))
      ([(1, (its 1).map (tagSeries sc))] ++
        (List.range' 2 (i - 2)).map (fun j => (j, (its j).map (tagSeries sc))))
      (1 + (i - 2)) =
      ⟨.loopStop i,
       storeFrom sc baseUrl observedAt its 2
         (crawlStep sc baseUrl observedAt 1 store0 (its 1)).1 (i - 2),
       [(1, (its 1).map (tagSeries sc))] ++
         (List.range' 2 (i - 2)).map (fun j => (j, (its j).map (tagSeries sc))),
       (1 + (i - 2)) + 1⟩ := by
    simp only [crawlGo, hi]
    rw [if_neg hine, if_neg (by omega : ¬ i = 1), if_pos hfp]
  rw [hfinal]
  refine ⟨rfl, ?_, ?_⟩
  · intro b hb
    simp only [List.mem_append, List.mem_singleton, List.mem_map] at hb
    rcases hb with rfl | ⟨j, hj, rfl⟩
    · show 1 < i
      omega
    · have hj' := (List.mem_range'_1).mp hj
      show j < i
      omega
  · show storeFrom sc baseUrl observedAt its 2
        (crawlStep sc baseUrl observedAt 1 store0 (its 1)).1 (i - 2) =
      storeFrom sc baseUrl observedAt its 1 store0 (i - 1)
    rw [show i - 1 = (i - 2) + 1 from by omega]
    rfl

/-- C1 (witness): the spec's loop scenario — page 4 fingerprint-identical to
page 1, pages 2 and 3 distinct and saved without error — stops at page 4. -/
theorem C1_loop_stop_witness :
    (crawl_series loopPages "SV1" cardrushBase 14 ⟨[], []⟩ obsTimes).outcome =
      .loopStop 4 :=
  (C1_loop_stop loopPages "SV1" cardrushBase obsTimes ⟨[], []⟩ 14 4 loopItems
    (by omega) (by omega) rfl (by decide) (by decide) (by decide)
    rfl (by decide) (by decide)).1

/-- C6: if the page at index `i` comes back with zero records (earlier pages
all accepted and successfully saved), `crawl_series` stops there with the
empty-stop outcome, forwarding to persistence exactly the batches of pages
`1..i-1` and nothing for index `i` — whatever `max_pages` still allows. -/
theorem C6_empty_stop (pages : ℕ → Except PyErr (List CardrushRecord))
    (sc baseUrl : String) (observedAt : ℕ → String) (store0 : CardrushStore)
    (maxPages i : ℕ) (its : ℕ → List CardrushRecord)
    (h1i : 1 ≤ i) (hmax : i ≤ maxPages)
    (hprev : ∀ j ∈ List.range' 1 (i - 1), pages j = .ok (its j) ∧ its j ≠ [] ∧
        (2 ≤ j → page_fingerprint (its j) ≠ page_fingerprint (its 1)))
    (hsave : ∀ j ∈ List.range' 1 (i - 1),
        (crawlStep sc baseUrl observedAt j
          (storeFrom sc baseUrl observedAt its 1 store0 (j - 1)) (its j)).2.isOk = true)
    (hi : pages i = .ok []) :
    (crawl_series pages sc baseUrl maxPages store0 observedAt).outcome =
      .emptyStop i ∧
      (crawl_series pages sc baseUrl maxPages store0 observedAt).saved =
        (List.range' 1 (i - 1)).map (fun j => (j, (its j).map (tagSeries sc))) ∧
      (crawl_series pages sc baseUrl maxPages store0 observedAt).store =
        storeFrom sc baseUrl observedAt its 1 store0 (i - 1) := by
  obtain ⟨m, rfl⟩ : ∃ m, maxPages = m + 1 := ⟨maxPages - 1, by omega⟩
  by_cases h1 : i = 1
  · subst h1
    have hrun : crawl_series pages sc baseUrl (m + 1) store0 observedAt =
        ⟨.emptyStop 1, store0, [], 1⟩ := by
      unfold crawl_series
      simp only [crawlGo, hi]
      rw [if_pos trivial]
    rw [hrun]
    exact ⟨rfl, by simp, rfl⟩
  · have h2 : 2 ≤ i := by omega
    have hfirst := hprev 1 (by rw [List.mem_range'_1]; omega)
    have hsv1 : (crawlStep sc baseUrl observedAt 1 store0 (its 1)).2.isOk = true :=
      hsave 1 (by rw [List.mem_range'_1]; omega)
    rw [crawl_series_step1 pages sc baseUrl observedAt store0 m (its 1)
      hfirst.1 hfirst.2.1 hsv1]
    have htrans : ∀ j ∈ List.range' 2 (i - 2), pages j = .ok (its j) ∧ its j ≠ [] ∧
        page_fingerprint (its j) ≠ page_fingerprint (its 1) ∧
        (crawlStep sc baseUrl observedAt j
          (storeFrom sc baseUrl observedAt its 2
            (crawlStep sc baseUrl observedAt 1 store0 (its 1)).1 (j - 2))
          (its j)).2.isOk = true := by
      intro j hj
      have hj' := (List.mem_range'_1).mp hj
      have h := hprev j (by rw [List.mem_range'_1]; omega)
      refine ⟨h.1, h.2.1, h.2.2 (by omega), ?_⟩
      have hs := hsave j (by rw [List.mem_range'_1]; omega)
      have heq : storeFrom sc baseUrl observedAt its 1 store0 (j - 1) =
          storeFrom sc baseUrl observedAt its 2
            (crawlStep sc baseUrl observedAt 1 store0 (its 1)).1 (j - 2) := by
        rw [show j - 1 = (j - 2) + 1 from by omega]
        rfl
      rw [heq] at hs
      exact hs
    have hsteps := crawlGo_steps pages sc baseUrl observedAt (page_fingerprint (its 1))
      its (i - 2) 2 m (crawlStep sc baseUrl observedAt 1 store0 (its 1)).1
      [(1, (its 1).map (tagSeries sc))] 1 (le_refl 2) (by omega) htrans
    rw [show 2 + (i - 2) = i from by omega] at hsteps
    rw [hsteps]
    obtain ⟨f, hf⟩ : ∃ f, m - (i - 2) = f + 1 := ⟨m - (i - 2) - 1, by omega⟩
    rw [hf]
    have hfinal : crawlGo pages sc baseUrl observedAt (page_fingerprint (its 1)) i
        (f + 1)
        (storeFrom sc baseUrl observedAt its 2
          (crawlStep sc baseUrl observedAt 1 store0 (its 1)).1 (i - 2))
        ([(1, (its 1).map (tagSeries sc))] ++
          (List.range' 2 (i - 2)).map (fun j => (j, (its j).map (tagSeries sc))))
        (1 + (i - 2)) =
        ⟨.emptyStop i,
         storeFrom sc baseUrl observedAt its 2
           (crawlStep sc baseUrl observedAt 1 store0 (its 1)).1 (i - 2),
         [(1, (its 1).map (tagSeries sc))] ++
           (List.range' 2 (i - 2)).map (fun j => (j, (its j).map (tagSeries sc))),
         (1 + (i - 2)) + 1⟩ := by
      simp only [crawlGo, hi]
      rw [if_pos trivial]
    rw [hfinal]
    refine ⟨rfl, ?_, ?_⟩
    · show [(1, (its 1).map (tagSeries sc))] ++
          (List.range' 2 (i - 2)).map (fun j => (j, (its j).map (tagSeries sc))) = _
      rw [show i - 1 = (i - 2) + 1 from by omega, List.range'_succ 1 (i - 2) 1]
      simp
    · show storeFrom sc baseUrl observedAt its 2
          (crawlStep sc baseUrl observedAt 1 store0 (its 1)).1 (i - 2) =
        storeFrom sc baseUrl observedAt its 1 store0 (i - 1)
      rw [show i - 1 = (i - 2) + 1 from by omega]
      rfl

/-- C6 (witness): page 3 empty after two accepted, successfully saved pages
stops with `emptyStop 3`, persisting exactly pages 1 and 2, with
`max_pages = 14` still allowing eleven more pages. -/
theorem C6_empty_stop_witness :
    (crawl_series emptyAt3Pages "S" cardrushBase 14 ⟨[], []⟩ obsTimes).outcome =
      .emptyStop 3 ∧
      (crawl_series emptyAt3Pages "S" cardrushBase 14 ⟨[], []⟩ obsTimes).saved.map
        Prod.fst = [1, 2] := by
  have h := C6_empty_stop emptyAt3Pages "S" cardrushBase obsTimes ⟨[], []⟩ 14 3
    emptyAt3Items (by omega) (by omega) (by decide) (by decide) rfl
  refine ⟨h.1, ?_⟩
  rw [h.2.1]
  decide

/-- C7: when pages `1..max_pages` all yield non-empty record lists whose
fingerprints differ from page 1's and every persistence call succeeds, the
run makes exactly `max_pages` fetch attempts and ends with the max-stop
outcome; and no run of `crawl_series` ever makes more than `max_pages`
fetch attempts, whatever happens. -/
theorem C7_max_stop (pages : ℕ → Except PyErr (List CardrushRecord))
    (sc baseUrl : String) (observedAt : ℕ → String) (store0 : CardrushStore)
    (maxPages : ℕ) (its : ℕ → List CardrushRecord)
    (h1 : 1 ≤ maxPages)
    (hall : ∀ j ∈ List.range' 1 maxPages, pages j = .ok (its j) ∧ its j ≠ [] ∧
        (2 ≤ j → page_fingerprint (its j) ≠ page_fingerprint (its 1)))
    (hsave : ∀ j ∈ List.range' 1 maxPages,
        (crawlStep sc baseUrl observedAt j
          (storeFrom sc baseUrl observedAt its 1 store0 (j - 1)) (its j)).2.isOk = true) :
    ((crawl_series pages sc baseUrl maxPages store0 observedAt).outcome = .maxStop ∧
      (crawl_series pages sc baseUrl maxPages store0 observedAt).fetches = maxPages) ∧
      ∀ (pages' : ℕ → Except PyErr (List CardrushRecord)) (sc' baseUrl' : String)
        (mp : ℕ) (store' : CardrushStore) (observedAt' : ℕ → String),
        (crawl_series pages' sc' baseUrl' mp store' observedAt').fetches ≤ mp := by
  constructor
  · obtain ⟨m, rfl⟩ : ∃ m, maxPages = m + 1 := ⟨maxPages - 1, by omega⟩
    have hfirst := hall 1 (by rw [List.mem_range'_1]; omega)
    have hsv1 : (crawlStep sc baseUrl observedAt 1 store0 (its 1)).2.isOk = true :=
      hsave 1 (by rw [List.mem_range'_1]; omega)
    rw [crawl_series_step1 pages sc baseUrl observedAt store0 m (its 1)
      hfirst.1 hfirst.2.1 hsv1]
    have htrans : ∀ j ∈ List.range' 2 m, pages j = .ok (its j) ∧ its j ≠ [] ∧
        page_fingerprint (its j) ≠ page_fingerprint (its 1) ∧
        (crawlStep sc baseUrl observedAt j
          (storeFrom sc baseUrl observedAt its 2
            (crawlStep sc baseUrl observedAt 1 store0 (its 1)).1 (j - 2))
          (its j)).2.isOk = true := by
      intro j hj
      have hj' := (List.mem_range'_1).mp hj
      have h := hall j (by rw [List.mem_range'_1]; omega)
      refine ⟨h.1, h.2.1, h.2.2 (by omega), ?_⟩
      have hs := hsave j (by rw [List.mem_range'_1]; omega)
      have heq : storeFrom sc baseUrl observedAt its 1 store0 (j - 1) =
          storeFrom sc baseUrl observedAt its 2
            (crawlStep sc baseUrl observedAt 1 store0 (its 1)).1 (j - 2) := by
        rw [show j - 1 = (j - 2) + 1 from by omega]
        rfl
      rw [heq] at hs
      exact hs
    have hsteps := crawlGo_steps pages sc baseUrl observedAt (page_fingerprint (its 1))
      its m 2 m (crawlStep sc baseUrl observedAt 1 store0 (its 1)).1
      [(1, (its 1).map (tagSeries sc))] 1 (le_refl 2) (le_refl m) htrans
    rw [hsteps, Nat.sub_self]
    exact ⟨rfl, by show 1 + m = m + 1; omega⟩
  · intro pages' sc' baseUrl' mp store' observedAt'
    simpa using crawlGo_fetches_le pages' sc' baseUrl' observedAt' mp none 1 store' [] 0

/-- C7 (witness): three distinct non-empty pages, all saved without error,
with `max_pages = 3` give `maxStop` after exactly three fetches, plus the
fetch bound at that run. -/
theorem C7_max_stop_witness :
    ((crawl_series fullPages "S" cardrushBase 3 ⟨[], []⟩ obsTimes).outcome =
      .maxStop ∧
      (crawl_series fullPages "S" cardrushBase 3 ⟨[], []⟩ obsTimes).fetches = 3) ∧
      (crawl_series fullPages "S" cardrushBase 3 ⟨[], []⟩ obsTimes).fetches ≤ 3 :=
  ⟨(C7_max_stop fullPages "S" cardrushBase obsTimes ⟨[], []⟩ 3 stairItems
      (by omega) (by decide) (by decide)).1,
   (C7_max_stop fullPages "S" cardrushBase obsTimes ⟨[], []⟩ 3 stairItems
      (by omega) (by decide) (by decide)).2 fullPages "S" cardrushBase 3 ⟨[], []⟩
      obsTimes⟩

/-- C2 (counterexample): in `crawl_series` nothing catches a fetch error — a
transport error at page 3 of 10 aborts the series after three fetch attempts,
so pages 4..10 are never attempted and only pages 1 and 2 were persisted,
contradicting the claim that every later index is still attempted. -/
theorem C2_counterexample :
    (crawl_series abortPages "S" cardrushBase 10 ⟨[], []⟩ obsTimes).outcome =
      .fetchAbort 3 ∧
      (crawl_series abortPages "S" cardrushBase 10 ⟨[], []⟩ obsTimes).fetches = 3 ∧
      (crawl_series abortPages "S" cardrushBase 10 ⟨[], []⟩ obsTimes).saved.map
        Prod.fst = [1, 2] := by
  refine ⟨by decide, by decide, by decide⟩

/-- C2 (amended): the skip-and-continue policy holds for the limitless
enumeration driver (`full_process_limitless.main`) as far as its `try`
reaches: the `try` wraps only `fetch_html`, so a *fetch* failure at index `i`
is logged and skipped and every index of `1..size` is still attempted — as
long as no `save_card_index` call raises (the save sits outside the `try`,
so a save exception such as an `IntegrityError` on the UNIQUE triple kills
the whole loop).  Under that no-save-error condition, every index whose
fetch succeeds is processed and saved.  The cardrush `crawl_series` loop
catches nothing at all — a transport error aborts the series (see the
counterexample). -/
theorem C2_amended_skip_and_continue (fetchO : ℕ → Except PyErr String)
    (extractO : String → CardInfo) (lang setCode : String) (size : ℕ)
    (store : List CardRow) (i : ℕ) (e : PyErr)
    (h1 : 1 ≤ i) (hsz : i ≤ size) (herr : fetchO i = .error e)
    (hnoabort : (limitless_series fetchO extractO lang setCode size store).2.2 = none) :
    LEvent.skip i ∈ (limitless_series fetchO extractO lang setCode size store).2.1 ∧
      ∀ (j : ℕ) (h : String), i < j → j ≤ size → fetchO j = .ok h →
        LEvent.saved j ∈ (limitless_series fetchO extractO lang setCode size store).2.1 := by
  have hev := limitlessGo_snd fetchO extractO lang setCode size 1 store hnoabort
  unfold limitless_series
  unfold limitless_series at hev
  rw [hev]
  constructor
  · refine List.mem_map.mpr ⟨i, ?_, ?_⟩
    · rw [List.mem_range'_1]
      omega
    · rw [herr]
  · intro j h hij hjs hok
    refine List.mem_map.mpr ⟨j, ?_, ?_⟩
    · rw [List.mem_range'_1]
      omega
    · rw [hok]

/-- C2 (witness): with the fetch of card index 3 failing out of 10 and every
save succeeding, index 3 is skipped and index 4 is still attempted and
saved. -/
theorem C2_amended_skip_and_continue_witness :
    LEvent.skip 3 ∈ (limitless_series lfetch3 lextractConst "en" "BLK" 10 []).2.1 ∧
      LEvent.saved 4 ∈ (limitless_series lfetch3 lextractConst "en" "BLK" 10 []).2.1 :=
  ⟨(C2_amended_skip_and_continue lfetch3 lextractConst "en" "BLK" 10 [] 3
      .transportError (by omega) (by omega) rfl (by decide)).1,
   (C2_amended_skip_and_continue lfetch3 lextractConst "en" "BLK" 10 [] 3
      .transportError (by omega) (by omega) rfl (by decide)).2 4 "html"
      (by omega) (by omega) rfl⟩

end Ptcg
